import Mathlib

/-!
Verification development for `egs/speech_llm/ASR_LLM/whisper_llm_zh/multi_dataset.py`.

The file is a flat catalog-and-accessor layer: a `MultiDataset` class stores a
root directory (`fbank_dir`) and exposes accessors that lazily open manifest
files (via lhotse's `load_manifest_lazy`) and either combine them into a
weighted union (`CutSet.mux`) or return them as a name-to-collection mapping.

Embedding choices:
- A filesystem path is a list of components (`FPath := List String`); the
  Python `/` operator on `pathlib.Path` is component append.
- A lazy collection handle (`LazyCutSet`) records only the path it was opened
  from; opening performs no read.  This mirrors the lazy-load contract of the
  external manifest library: `load_manifest_lazy` is cheap, iteration (and
  cardinality, which must materialize the manifest to count its records)
  performs the read and is the first point a missing file can fail.
- The filesystem is an explicit association list `FS` from paths to manifest
  contents; a path absent from it is a missing file.
- Every accessor returns, next to its result, the list of I/O effects that
  happen inside its synchronous call frame: `Effect.openEff p` for each
  `load_manifest_lazy` call, `Effect.readEff p` for each manifest read forced
  in-frame (the `len(...)` calls that compute the mux weights).
-/

/-- A filesystem path, as its list of components.  `pathlib.Path` division
`a / b` becomes list append. -/
abbrev FPath := List String

/-- The contents of one manifest file: its list of cut records (record
contents are opaque here, kept as strings). -/
abbrev Manifest := List String

/-- The filesystem visible to the aggregator: an association list from path
to manifest contents.  A path that is not a key is a missing file. -/
abbrev FS := List (FPath × Manifest)

/-- Look a path up in the filesystem. -/
def lookupFS (fs : FS) (p : FPath) : Option Manifest :=
  List.lookup p fs

/-- An I/O effect performed inside an accessor's synchronous call frame:
a cheap manifest open, or an expensive manifest read. -/
inductive Effect where
  | openEff (p : FPath)
  | readEff (p : FPath)
deriving DecidableEq, Repr

/-- Whether an effect is a cheap open (as opposed to an expensive read). -/
def Effect.isOpen : Effect → Bool
  | .openEff _ => true
  | .readEff _ => false

/-- The paths of the open effects of a trace, in order. -/
def openedPaths (tr : List Effect) : List FPath :=
  tr.filterMap fun e =>
    match e with
    | .openEff p => some p
    | .readEff _ => none

/-- A trace is read-free when it consists of cheap opens only. -/
def readFree (tr : List Effect) : Bool :=
  tr.all Effect.isOpen

/-- The failure raised when a manifest file is absent at the point it is
actually read. -/
inductive LoadError where
  | fileNotFound (p : FPath)
deriving DecidableEq, Repr

/-- Whether an `Except` result is a success. -/
def exOk {ε α : Type} : Except ε α → Bool
  | .ok _ => true
  | .error _ => false

/-- Lazy manifest handle: `lhotse.load_manifest_lazy` returns a `CutSet`
backed by the file, holding its path; no data is read at open time. -/
structure LazyCutSet where
  path : FPath
deriving DecidableEq, Repr

/-- `load_manifest_lazy(path)`: cheap open, returns a lazy handle to the
file.  Never fails at open time (the lazy-load contract defers missing-file
failures to the first read). -/
def load_manifest_lazy (p : FPath) : LazyCutSet :=
  ⟨p⟩

/-- Iterating a lazy handle: the first expensive read.  Fails with a
not-found error when the manifest file is absent. -/
def LazyCutSet.iter (fs : FS) (c : LazyCutSet) : Except LoadError Manifest :=
  match lookupFS fs c.path with
  | some m => Except.ok m
  | none => Except.error (LoadError.fileNotFound c.path)

/-- `len(cuts)` on a lazy handle: the cardinality of a lazily materializing
sequence requires reading the manifest (lhotse counts its lines); `none`
when the file is absent. -/
def lenLazy (fs : FS) (c : LazyCutSet) : Option Nat :=
  (lookupFS fs c.path).map List.length

/-- Evaluate `[len(a), len(b), ...]` left to right, as Python evaluates the
`weights` list argument of `CutSet.mux`: each `len` forces a read of its
manifest; the first missing file raises and aborts the whole list.  Returns
the computed weights (or the first error) together with the read effects
performed. -/
def lensAll (fs : FS) : List LazyCutSet → Except LoadError (List Nat) × List Effect
  | [] => (Except.ok [], [])
  | c :: cs =>
    match lenLazy fs c with
    | none => (Except.error (LoadError.fileNotFound c.path), [Effect.readEff c.path])
    | some n =>
      let rest := lensAll fs cs
      (rest.1.map (fun ws => n :: ws), Effect.readEff c.path :: rest.2)

/-- The result of `CutSet.mux(*sources, weights=...)`: the source handles
and their weights, in the order they were passed. -/
structure MuxCutSet where
  sources : List LazyCutSet
  weights : List Nat
deriving DecidableEq, Repr

/-- The aggregator class.  `__init__` stores the root directory and nothing
else; the class has no other attribute and no cache. -/
structure MultiDataset where
  fbank_dir : FPath
deriving DecidableEq, Repr

/-- `MultiDataset(fbank_dir)`: stores the root verbatim; performs no
filesystem access (the empty effect trace), and is total: it succeeds for
every root, existing or not. -/
def MultiDataset.init (fbank_dir : FPath) : MultiDataset × List Effect :=
  (⟨fbank_dir⟩, [])

/-- The 13 training manifests, as `train_cuts` opens them (in the order of
the `load_manifest_lazy` calls in its body). -/
def MultiDataset.trainOpenPaths (d : MultiDataset) : List FPath :=
  [d.fbank_dir ++ ["thchs_30_cuts_train.jsonl.gz"],
   d.fbank_dir ++ ["aishell_cuts_train.jsonl.gz"],
   d.fbank_dir ++ ["aishell2_cuts_train.jsonl.gz"],
   d.fbank_dir ++ ["aishell4_cuts_train_L.jsonl.gz"],
   d.fbank_dir ++ ["aishell4_cuts_train_M.jsonl.gz"],
   d.fbank_dir ++ ["aishell4_cuts_train_S.jsonl.gz"],
   d.fbank_dir ++ ["stcmds_cuts_train.jsonl.gz"],
   d.fbank_dir ++ ["primewords_cuts_train.jsonl.gz"],
   d.fbank_dir ++ ["magicdata_cuts_train.jsonl.gz"],
   d.fbank_dir ++ ["alimeeting-far_cuts_train.jsonl.gz"],
   d.fbank_dir ++ ["wenetspeech", "cuts_L_fixed.jsonl.gz"],
   d.fbank_dir ++ ["kespeech", "kespeech-asr_cuts_train_phase1.jsonl.gz"],
   d.fbank_dir ++ ["kespeech", "kespeech-asr_cuts_train_phase2.jsonl.gz"]]

/-- The 13 training source handles in the order they are passed to
`CutSet.mux` (which differs from the open order: `alimeeting_cuts` is
opened after `magicdata_cuts` but muxed before `stcmds_cuts`). -/
def MultiDataset.trainSources (d : MultiDataset) : List LazyCutSet :=
  [load_manifest_lazy (d.fbank_dir ++ ["thchs_30_cuts_train.jsonl.gz"]),
   load_manifest_lazy (d.fbank_dir ++ ["aishell_cuts_train.jsonl.gz"]),
   load_manifest_lazy (d.fbank_dir ++ ["aishell2_cuts_train.jsonl.gz"]),
   load_manifest_lazy (d.fbank_dir ++ ["aishell4_cuts_train_L.jsonl.gz"]),
   load_manifest_lazy (d.fbank_dir ++ ["aishell4_cuts_train_M.jsonl.gz"]),
   load_manifest_lazy (d.fbank_dir ++ ["aishell4_cuts_train_S.jsonl.gz"]),
   load_manifest_lazy (d.fbank_dir ++ ["alimeeting-far_cuts_train.jsonl.gz"]),
   load_manifest_lazy (d.fbank_dir ++ ["stcmds_cuts_train.jsonl.gz"]),
   load_manifest_lazy (d.fbank_dir ++ ["primewords_cuts_train.jsonl.gz"]),
   load_manifest_lazy (d.fbank_dir ++ ["magicdata_cuts_train.jsonl.gz"]),
   load_manifest_lazy (d.fbank_dir ++ ["wenetspeech", "cuts_L_fixed.jsonl.gz"]),
   load_manifest_lazy (d.fbank_dir ++ ["kespeech", "kespeech-asr_cuts_train_phase1.jsonl.gz"]),
   load_manifest_lazy (d.fbank_dir ++ ["kespeech", "kespeech-asr_cuts_train_phase2.jsonl.gz"])]

/-- `MultiDataset.train_cuts`: opens the 13 training manifests lazily (one
open effect each, in code order), then returns
`CutSet.mux(*sources, weights=[len(s) for each source in mux order])`.
The `len` calls are evaluated eagerly inside this frame, each forcing a
read of its manifest; the first missing training manifest raises and the
call yields no result. -/
def MultiDataset.train_cuts (fs : FS) (d : MultiDataset) :
    Except LoadError MuxCutSet × List Effect :=
  let opens := d.trainOpenPaths.map Effect.openEff
  let sources := d.trainSources
  let lw := lensAll fs sources
  (lw.1.map (fun ws => MuxCutSet.mk sources ws), opens ++ lw.2)

/-- `MultiDataset.dev_cuts`: opens the single WeNetSpeech DEV manifest. -/
def MultiDataset.dev_cuts (d : MultiDataset) : LazyCutSet × List Effect :=
  let wenetspeech_dev_cuts :=
    load_manifest_lazy (d.fbank_dir ++ ["wenetspeech", "cuts_DEV_fixed.jsonl.gz"])
  (wenetspeech_dev_cuts, [Effect.openEff wenetspeech_dev_cuts.path])

/-- `MultiDataset.test_cuts`: opens the 15 test/dev/eval manifests lazily
and returns them as a partition-name to collection mapping, in the
insertion order of the returned dict; no partitions are combined. -/
def MultiDataset.test_cuts (d : MultiDataset) :
    List (String × LazyCutSet) × List Effect :=
  let aishell_test_cuts := load_manifest_lazy (d.fbank_dir ++ ["aishell_cuts_test.jsonl.gz"])
  let aishell_dev_cuts := load_manifest_lazy (d.fbank_dir ++ ["aishell_cuts_dev.jsonl.gz"])
  let aishell2_test_cuts := load_manifest_lazy (d.fbank_dir ++ ["aishell2_cuts_test.jsonl.gz"])
  let aishell2_dev_cuts := load_manifest_lazy (d.fbank_dir ++ ["aishell2_cuts_dev.jsonl.gz"])
  let aishell4_test_cuts := load_manifest_lazy (d.fbank_dir ++ ["aishell4_cuts_test.jsonl.gz"])
  let alimeeting_test_cuts := load_manifest_lazy (d.fbank_dir ++ ["alimeeting-far_cuts_test.jsonl.gz"])
  let alimeeting_eval_cuts := load_manifest_lazy (d.fbank_dir ++ ["alimeeting-far_cuts_eval.jsonl.gz"])
  let magicdata_test_cuts := load_manifest_lazy (d.fbank_dir ++ ["magicdata_cuts_test.jsonl.gz"])
  let magicdata_dev_cuts := load_manifest_lazy (d.fbank_dir ++ ["magicdata_cuts_dev.jsonl.gz"])
  let kespeech_test_cuts := load_manifest_lazy (d.fbank_dir ++ ["kespeech", "kespeech-asr_cuts_test.jsonl.gz"])
  let kespeech_dev_phase1_cuts := load_manifest_lazy (d.fbank_dir ++ ["kespeech", "kespeech-asr_cuts_dev_phase1.jsonl.gz"])
  let kespeech_dev_phase2_cuts := load_manifest_lazy (d.fbank_dir ++ ["kespeech", "kespeech-asr_cuts_dev_phase2.jsonl.gz"])
  let wenetspeech_test_meeting_cuts := load_manifest_lazy (d.fbank_dir ++ ["wenetspeech", "cuts_TEST_MEETING.jsonl.gz"])
  let wenetspeech_test_net_cuts := load_manifest_lazy (d.fbank_dir ++ ["wenetspeech", "cuts_TEST_NET.jsonl.gz"])
  let wenetspeech_dev_cuts := load_manifest_lazy (d.fbank_dir ++ ["wenetspeech", "cuts_DEV_fixed.jsonl.gz"])
  let opens := [aishell_test_cuts, aishell_dev_cuts, aishell2_test_cuts,
    aishell2_dev_cuts, aishell4_test_cuts, alimeeting_test_cuts,
    alimeeting_eval_cuts, magicdata_test_cuts, magicdata_dev_cuts,
    kespeech_test_cuts, kespeech_dev_phase1_cuts, kespeech_dev_phase2_cuts,
    wenetspeech_test_meeting_cuts, wenetspeech_test_net_cuts,
    wenetspeech_dev_cuts].map (fun c => Effect.openEff c.path)
  ([("wenetspeech-meeting_test", wenetspeech_test_meeting_cuts),
    ("aishell_test", aishell_test_cuts),
    ("aishell_dev", aishell_dev_cuts),
    ("ali-meeting_test", alimeeting_test_cuts),
    ("ali-meeting_eval", alimeeting_eval_cuts),
    ("aishell-4_test", aishell4_test_cuts),
    ("aishell-2_test", aishell2_test_cuts),
    ("aishell-2_dev", aishell2_dev_cuts),
    ("magicdata_test", magicdata_test_cuts),
    ("magicdata_dev", magicdata_dev_cuts),
    ("kespeech-asr_test", kespeech_test_cuts),
    ("kespeech-asr_dev_phase1", kespeech_dev_phase1_cuts),
    ("kespeech-asr_dev_phase2", kespeech_dev_phase2_cuts),
    ("wenetspeech-net_test", wenetspeech_test_net_cuts),
    ("wenetspeech_dev", wenetspeech_dev_cuts)], opens)

/-- `MultiDataset.aishell_train_cuts`: bare collection, one manifest. -/
def MultiDataset.aishell_train_cuts (d : MultiDataset) : LazyCutSet × List Effect :=
  let aishell_cuts := load_manifest_lazy (d.fbank_dir ++ ["aishell_cuts_train.jsonl.gz"])
  (aishell_cuts, [Effect.openEff aishell_cuts.path])

/-- `MultiDataset.aishell_dev_cuts`: bare collection, one manifest. -/
def MultiDataset.aishell_dev_cuts (d : MultiDataset) : LazyCutSet × List Effect :=
  let aishell_dev_cuts := load_manifest_lazy (d.fbank_dir ++ ["aishell_cuts_dev.jsonl.gz"])
  (aishell_dev_cuts, [Effect.openEff aishell_dev_cuts.path])

/-- `MultiDataset.aishell_test_cuts`: despite its `-> CutSet` annotation the
method returns a single-entry dict keyed `aishell_test`. -/
def MultiDataset.aishell_test_cuts (d : MultiDataset) :
    List (String × LazyCutSet) × List Effect :=
  let aishell_test_cuts := load_manifest_lazy (d.fbank_dir ++ ["aishell_cuts_test.jsonl.gz"])
  ([("aishell_test", aishell_test_cuts)], [Effect.openEff aishell_test_cuts.path])

/-- `MultiDataset.aishell2_train_cuts`: bare collection, one manifest. -/
def MultiDataset.aishell2_train_cuts (d : MultiDataset) : LazyCutSet × List Effect :=
  let aishell_2_cuts := load_manifest_lazy (d.fbank_dir ++ ["aishell2_cuts_train.jsonl.gz"])
  (aishell_2_cuts, [Effect.openEff aishell_2_cuts.path])

/-- `MultiDataset.aishell2_dev_cuts`: bare collection, one manifest. -/
def MultiDataset.aishell2_dev_cuts (d : MultiDataset) : LazyCutSet × List Effect :=
  let aishell2_dev_cuts := load_manifest_lazy (d.fbank_dir ++ ["aishell2_cuts_dev.jsonl.gz"])
  (aishell2_dev_cuts, [Effect.openEff aishell2_dev_cuts.path])

/-- `MultiDataset.aishell2_test_cuts`: single-entry dict keyed
`aishell2_test`. -/
def MultiDataset.aishell2_test_cuts (d : MultiDataset) :
    List (String × LazyCutSet) × List Effect :=
  let aishell2_test_cuts := load_manifest_lazy (d.fbank_dir ++ ["aishell2_cuts_test.jsonl.gz"])
  ([("aishell2_test", aishell2_test_cuts)], [Effect.openEff aishell2_test_cuts.path])

/-- `MultiDataset.wenetspeech_test_meeting_cuts`: single-entry dict keyed
`wenetspeech-meeting_test`. -/
def MultiDataset.wenetspeech_test_meeting_cuts (d : MultiDataset) :
    List (String × LazyCutSet) × List Effect :=
  let wenetspeech_test_meeting_cuts :=
    load_manifest_lazy (d.fbank_dir ++ ["wenetspeech", "cuts_TEST_MEETING.jsonl.gz"])
  ([("wenetspeech-meeting_test", wenetspeech_test_meeting_cuts)],
   [Effect.openEff wenetspeech_test_meeting_cuts.path])

/-- Python's `str.zfill(width)`: left-pad with zeros up to `width`. -/
def zfill (s : String) (width : Nat) : String :=
  if width ≤ s.length then s
  else String.mk (List.replicate (width - s.length) '0') ++ s

/-- `MultiDataset.speechio_test_cuts`: builds partition names
`SPEECHIO_ASR_ZH000` + `str(i).zfill(2)` for `i` in
`range(start_index, end_index + 1)` with `start_index = 0`,
`end_index = 26`, then opens `speechio_cuts_` + partition + `.jsonl.gz`
under the root for each, returning the partition-to-collection dict in
loop order. -/
def MultiDataset.speechio_test_cuts (d : MultiDataset) :
    List (String × LazyCutSet) × List Effect :=
  let start_index := 0
  let end_index := 26
  let dataset_parts := (List.range (end_index + 1 - start_index)).map
    (fun i => "SPEECHIO_ASR_ZH000" ++ zfill (toString (start_index + i)) 2)
  let results_dict := dataset_parts.map (fun partition =>
    (partition,
     load_manifest_lazy
       (d.fbank_dir ++ ["speechio" ++ "_cuts_" ++ partition ++ "." ++ "jsonl.gz"])))
  (results_dict, results_dict.map (fun kv => Effect.openEff kv.2.path))

/-- Specification helper: the cardinalities of a list of lazy handles under
a filesystem, position by position; `none` as soon as one file is absent.
`lensOpt fs sources = some weights` says the i-th weight is the i-th
source's cardinality, in matching order. -/
def lensOpt (fs : FS) : List LazyCutSet → Option (List Nat)
  | [] => some []
  | c :: cs =>
    match lenLazy fs c, lensOpt fs cs with
    | some n, some ws => some (n :: ws)
    | _, _ => none

/-- The 13 training manifest paths relative to the root, in open order. -/
def trainRel : List FPath :=
  [["thchs_30_cuts_train.jsonl.gz"],
   ["aishell_cuts_train.jsonl.gz"],
   ["aishell2_cuts_train.jsonl.gz"],
   ["aishell4_cuts_train_L.jsonl.gz"],
   ["aishell4_cuts_train_M.jsonl.gz"],
   ["aishell4_cuts_train_S.jsonl.gz"],
   ["stcmds_cuts_train.jsonl.gz"],
   ["primewords_cuts_train.jsonl.gz"],
   ["magicdata_cuts_train.jsonl.gz"],
   ["alimeeting-far_cuts_train.jsonl.gz"],
   ["wenetspeech", "cuts_L_fixed.jsonl.gz"],
   ["kespeech", "kespeech-asr_cuts_train_phase1.jsonl.gz"],
   ["kespeech", "kespeech-asr_cuts_train_phase2.jsonl.gz"]]

/-- The 15 test/dev/eval manifest paths relative to the root, in the order
`test_cuts` opens them. -/
def testOpenRel : List FPath :=
  [["aishell_cuts_test.jsonl.gz"],
   ["aishell_cuts_dev.jsonl.gz"],
   ["aishell2_cuts_test.jsonl.gz"],
   ["aishell2_cuts_dev.jsonl.gz"],
   ["aishell4_cuts_test.jsonl.gz"],
   ["alimeeting-far_cuts_test.jsonl.gz"],
   ["alimeeting-far_cuts_eval.jsonl.gz"],
   ["magicdata_cuts_test.jsonl.gz"],
   ["magicdata_cuts_dev.jsonl.gz"],
   ["kespeech", "kespeech-asr_cuts_test.jsonl.gz"],
   ["kespeech", "kespeech-asr_cuts_dev_phase1.jsonl.gz"],
   ["kespeech", "kespeech-asr_cuts_dev_phase2.jsonl.gz"],
   ["wenetspeech", "cuts_TEST_MEETING.jsonl.gz"],
   ["wenetspeech", "cuts_TEST_NET.jsonl.gz"],
   ["wenetspeech", "cuts_DEV_fixed.jsonl.gz"]]

/-- A concrete aggregator rooted at directory `f`, used by witnesses. -/
def d0 : MultiDataset := ⟨["f"]⟩

/-- A concrete filesystem holding every training manifest of `d0`, each
with two cut records; used by witnesses. -/
def fsTrainAll : FS :=
  (MultiDataset.trainOpenPaths d0).map (fun p => (p, ["c1", "c2"]))

/-- The weighted union `train_cuts` produces on `fsTrainAll`; used by
witnesses. -/
def m0 : MuxCutSet :=
  ⟨MultiDataset.trainSources d0, List.replicate 13 2⟩

theorem openedPaths_append (a b : List Effect) :
    openedPaths (a ++ b) = openedPaths a ++ openedPaths b :=
  List.filterMap_append ..

theorem openedPaths_map_open (ps : List FPath) :
    openedPaths (ps.map Effect.openEff) = ps := by
  induction ps with
  | nil => rfl
  | cons p ps ih => simp [openedPaths, List.filterMap_cons] at ih ⊢; exact ih

theorem openedPaths_lensAll (fs : FS) (cs : List LazyCutSet) :
    openedPaths (lensAll fs cs).2 = [] := by
  induction cs with
  | nil => rfl
  | cons c cs ih =>
    simp only [lensAll]
    cases h : lenLazy fs c with
    | none => rfl
    | some n => simpa [openedPaths, List.filterMap_cons] using ih

theorem trainOpenPaths_eq (d : MultiDataset) :
    d.trainOpenPaths = trainRel.map (d.fbank_dir ++ ·) := rfl

theorem openedPaths_train_cuts (fs : FS) (d : MultiDataset) :
    openedPaths (MultiDataset.train_cuts fs d).2 = trainRel.map (d.fbank_dir ++ ·) := by
  show openedPaths (d.trainOpenPaths.map Effect.openEff ++ (lensAll fs d.trainSources).2) = _
  rw [openedPaths_append, openedPaths_map_open, openedPaths_lensAll,
    List.append_nil, trainOpenPaths_eq]

theorem openedPaths_test_cuts (d : MultiDataset) :
    openedPaths (MultiDataset.test_cuts d).2 = testOpenRel.map (d.fbank_dir ++ ·) := rfl

theorem exOk_map {ε α β : Type} (f : α → β) (e : Except ε α) :
    exOk (e.map f) = exOk e := by
  cases e <;> rfl

theorem lensAll_fst_ok (fs : FS) (cs : List LazyCutSet) (ws : List Nat)
    (h : (lensAll fs cs).1 = Except.ok ws) :
    lensOpt fs cs = some ws ∧ ws.length = cs.length := by
  induction cs generalizing ws with
  | nil =>
    simp only [lensAll] at h
    cases h
    exact ⟨rfl, rfl⟩
  | cons c cs ih =>
    simp only [lensAll] at h
    cases hl : lenLazy fs c with
    | none => rw [hl] at h; cases h
    | some n =>
      rw [hl] at h
      cases hr : (lensAll fs cs).1 with
      | error e => simp [hr, Except.map] at h
      | ok ws' =>
        rw [hr] at h
        simp only [Except.map] at h
        cases h
        obtain ⟨h1, h2⟩ := ih ws' hr
        refine ⟨?_, by simp [h2]⟩
        simp [lensOpt, hl, h1]

theorem lensAll_fst_err (fs : FS) (cs : List LazyCutSet) (p : FPath)
    (hp : p ∈ cs.map LazyCutSet.path) (hmiss : lookupFS fs p = none) :
    exOk (lensAll fs cs).1 = false := by
  induction cs with
  | nil => simp at hp
  | cons c cs ih =>
    simp only [List.map_cons, List.mem_cons] at hp
    simp only [lensAll]
    cases hl : lenLazy fs c with
    | none => rfl
    | some n =>
      rcases hp with hp | hp
      · exfalso
        rw [lenLazy, ← hp, hmiss] at hl
        cases hl
      · rw [exOk_map]
        exact ih hp

theorem lensAll_head_read (fs : FS) (c : LazyCutSet) (cs : List LazyCutSet) :
    Effect.readEff c.path ∈ (lensAll fs (c :: cs)).2 := by
  simp only [lensAll]
  cases h : lenLazy fs c <;> simp

theorem mem_trainOpenPaths_iff (d : MultiDataset) (p : FPath) :
    p ∈ d.trainOpenPaths ↔ p ∈ d.trainSources.map LazyCutSet.path := by
  simp only [MultiDataset.trainOpenPaths, MultiDataset.trainSources,
    load_manifest_lazy, List.map_cons, List.map_nil, List.mem_cons,
    List.not_mem_nil, or_false]
  tauto

/-- C1: For every root directory, `train_cuts()` returns a weighted union
built from exactly the 13 training source collections of the fixed catalog
(in the order they are passed to `CutSet.mux`), whose weights list has the
same length as the source list and whose i-th weight is the cardinality of
the i-th source collection, in matching order. -/
theorem train_cuts_weighted_union_catalog (fs : FS) (d : MultiDataset)
    (m : MuxCutSet) (h : (MultiDataset.train_cuts fs d).1 = Except.ok m) :
    m.sources = d.trainSources ∧ m.sources.length = 13 ∧
    m.weights.length = m.sources.length ∧
    lensOpt fs m.sources = some m.weights := by
  have h' : ((lensAll fs d.trainSources).1).map
      (fun ws => MuxCutSet.mk d.trainSources ws) = Except.ok m := h
  cases hE : (lensAll fs d.trainSources).1 with
  | error e => rw [hE] at h'; cases h'
  | ok ws =>
    rw [hE] at h'
    simp only [Except.map] at h'
    cases h'
    obtain ⟨h1, h2⟩ := lensAll_fst_ok fs d.trainSources ws hE
    exact ⟨rfl, rfl, by simpa using h2, h1⟩

/-- C1 witness: on a concrete filesystem holding all 13 training manifests
(two cuts each), `train_cuts` succeeds and the theorem's conclusion holds
for the returned union. -/
theorem train_cuts_weighted_union_catalog_witness :
    m0.sources = MultiDataset.trainSources d0 ∧ m0.sources.length = 13 ∧
    m0.weights.length = m0.sources.length ∧
    lensOpt fsTrainAll m0.sources = some m0.weights :=
  train_cuts_weighted_union_catalog fsTrainAll d0 m0 (by rfl)

/-- C3: For every root directory, `speechio_test_cuts()` returns exactly 27
entries keyed `SPEECHIO_ASR_ZH00000` through `SPEECHIO_ASR_ZH00026` in
order, the entry for partition `p` opened from `speechio_cuts_` + `p` +
`.jsonl.gz` resolved against the root. -/
theorem speechio_test_cuts_27_partitions (d : MultiDataset) :
    (MultiDataset.speechio_test_cuts d).1.length = 27 ∧
    (MultiDataset.speechio_test_cuts d).1 =
      [("SPEECHIO_ASR_ZH00000", ⟨d.fbank_dir ++ ["speechio_cuts_SPEECHIO_ASR_ZH00000.jsonl.gz"]⟩),
       ("SPEECHIO_ASR_ZH00001", ⟨d.fbank_dir ++ ["speechio_cuts_SPEECHIO_ASR_ZH00001.jsonl.gz"]⟩),
       ("SPEECHIO_ASR_ZH00002", ⟨d.fbank_dir ++ ["speechio_cuts_SPEECHIO_ASR_ZH00002.jsonl.gz"]⟩),
       ("SPEECHIO_ASR_ZH00003", ⟨d.fbank_dir ++ ["speechio_cuts_SPEECHIO_ASR_ZH00003.jsonl.gz"]⟩),
       ("SPEECHIO_ASR_ZH00004", ⟨d.fbank_dir ++ ["speechio_cuts_SPEECHIO_ASR_ZH00004.jsonl.gz"]⟩),
       ("SPEECHIO_ASR_ZH00005", ⟨d.fbank_dir ++ ["speechio_cuts_SPEECHIO_ASR_ZH00005.jsonl.gz"]⟩),
       ("SPEECHIO_ASR_ZH00006", ⟨d.fbank_dir ++ ["speechio_cuts_SPEECHIO_ASR_ZH00006.jsonl.gz"]⟩),
       ("SPEECHIO_ASR_ZH00007", ⟨d.fbank_dir ++ ["speechio_cuts_SPEECHIO_ASR_ZH00007.jsonl.gz"]⟩),
       ("SPEECHIO_ASR_ZH00008", ⟨d.fbank_dir ++ ["speechio_cuts_SPEECHIO_ASR_ZH00008.jsonl.gz"]⟩),
       ("SPEECHIO_ASR_ZH00009", ⟨d.fbank_dir ++ ["speechio_cuts_SPEECHIO_ASR_ZH00009.jsonl.gz"]⟩),
       ("SPEECHIO_ASR_ZH00010", ⟨d.fbank_dir ++ ["speechio_cuts_SPEECHIO_ASR_ZH00010.jsonl.gz"]⟩),
       ("SPEECHIO_ASR_ZH00011", ⟨d.fbank_dir ++ ["speechio_cuts_SPEECHIO_ASR_ZH00011.jsonl.gz"]⟩),
       ("SPEECHIO_ASR_ZH00012", ⟨d.fbank_dir ++ ["speechio_cuts_SPEECHIO_ASR_ZH00012.jsonl.gz"]⟩),
       ("SPEECHIO_ASR_ZH00013", ⟨d.fbank_dir ++ ["speechio_cuts_SPEECHIO_ASR_ZH00013.jsonl.gz"]⟩),
       ("SPEECHIO_ASR_ZH00014", ⟨d.fbank_dir ++ ["speechio_cuts_SPEECHIO_ASR_ZH00014.jsonl.gz"]⟩),
       ("SPEECHIO_ASR_ZH00015", ⟨d.fbank_dir ++ ["speechio_cuts_SPEECHIO_ASR_ZH00015.jsonl.gz"]⟩),
       ("SPEECHIO_ASR_ZH00016", ⟨d.fbank_dir ++ ["speechio_cuts_SPEECHIO_ASR_ZH00016.jsonl.gz"]⟩),
       ("SPEECHIO_ASR_ZH00017", ⟨d.fbank_dir ++ ["speechio_cuts_SPEECHIO_ASR_ZH00017.jsonl.gz"]⟩),
       ("SPEECHIO_ASR_ZH00018", ⟨d.fbank_dir ++ ["speechio_cuts_SPEECHIO_ASR_ZH00018.jsonl.gz"]⟩),
       ("SPEECHIO_ASR_ZH00019", ⟨d.fbank_dir ++ ["speechio_cuts_SPEECHIO_ASR_ZH00019.jsonl.gz"]⟩),
       ("SPEECHIO_ASR_ZH00020", ⟨d.fbank_dir ++ ["speechio_cuts_SPEECHIO_ASR_ZH00020.jsonl.gz"]⟩),
       ("SPEECHIO_ASR_ZH00021", ⟨d.fbank_dir ++ ["speechio_cuts_SPEECHIO_ASR_ZH00021.jsonl.gz"]⟩),
       ("SPEECHIO_ASR_ZH00022", ⟨d.fbank_dir ++ ["speechio_cuts_SPEECHIO_ASR_ZH00022.jsonl.gz"]⟩),
       ("SPEECHIO_ASR_ZH00023", ⟨d.fbank_dir ++ ["speechio_cuts_SPEECHIO_ASR_ZH00023.jsonl.gz"]⟩),
       ("SPEECHIO_ASR_ZH00024", ⟨d.fbank_dir ++ ["speechio_cuts_SPEECHIO_ASR_ZH00024.jsonl.gz"]⟩),
       ("SPEECHIO_ASR_ZH00025", ⟨d.fbank_dir ++ ["speechio_cuts_SPEECHIO_ASR_ZH00025.jsonl.gz"]⟩),
       ("SPEECHIO_ASR_ZH00026", ⟨d.fbank_dir ++ ["speechio_cuts_SPEECHIO_ASR_ZH00026.jsonl.gz"]⟩)] :=
  ⟨rfl, rfl⟩

/-- C4: For every root directory, `test_cuts()` returns a mapping whose
keys are exactly the fixed 15 partition names, in dict insertion order,
each mapped to the collection opened from its documented manifest path; no
partitions are combined. -/
theorem test_cuts_15_partitions (d : MultiDataset) :
    (MultiDataset.test_cuts d).1 =
      [("wenetspeech-meeting_test", ⟨d.fbank_dir ++ ["wenetspeech", "cuts_TEST_MEETING.jsonl.gz"]⟩),
       ("aishell_test", ⟨d.fbank_dir ++ ["aishell_cuts_test.jsonl.gz"]⟩),
       ("aishell_dev", ⟨d.fbank_dir ++ ["aishell_cuts_dev.jsonl.gz"]⟩),
       ("ali-meeting_test", ⟨d.fbank_dir ++ ["alimeeting-far_cuts_test.jsonl.gz"]⟩),
       ("ali-meeting_eval", ⟨d.fbank_dir ++ ["alimeeting-far_cuts_eval.jsonl.gz"]⟩),
       ("aishell-4_test", ⟨d.fbank_dir ++ ["aishell4_cuts_test.jsonl.gz"]⟩),
       ("aishell-2_test", ⟨d.fbank_dir ++ ["aishell2_cuts_test.jsonl.gz"]⟩),
       ("aishell-2_dev", ⟨d.fbank_dir ++ ["aishell2_cuts_dev.jsonl.gz"]⟩),
       ("magicdata_test", ⟨d.fbank_dir ++ ["magicdata_cuts_test.jsonl.gz"]⟩),
       ("magicdata_dev", ⟨d.fbank_dir ++ ["magicdata_cuts_dev.jsonl.gz"]⟩),
       ("kespeech-asr_test", ⟨d.fbank_dir ++ ["kespeech", "kespeech-asr_cuts_test.jsonl.gz"]⟩),
       ("kespeech-asr_dev_phase1", ⟨d.fbank_dir ++ ["kespeech", "kespeech-asr_cuts_dev_phase1.jsonl.gz"]⟩),
       ("kespeech-asr_dev_phase2", ⟨d.fbank_dir ++ ["kespeech", "kespeech-asr_cuts_dev_phase2.jsonl.gz"]⟩),
       ("wenetspeech-net_test", ⟨d.fbank_dir ++ ["wenetspeech", "cuts_TEST_NET.jsonl.gz"]⟩),
       ("wenetspeech_dev", ⟨d.fbank_dir ++ ["wenetspeech", "cuts_DEV_fixed.jsonl.gz"]⟩)] :=
  rfl

/-- C5: Construction stores the supplied root path and performs no
filesystem access (empty effect trace); it is a total function, succeeding
for every root, and on a filesystem with no files at all the failure
surfaces only at first use (here: `train_cuts`), never at construction. -/
theorem multiDataset_init_pure (root : FPath) :
    MultiDataset.init root = (⟨root⟩, []) ∧
    (MultiDataset.init root).1.fbank_dir = root ∧
    exOk (MultiDataset.train_cuts [] (MultiDataset.init root).1).1 = false :=
  ⟨rfl, rfl, rfl⟩

/-- C8: The narrow accessors `aishell_train_cuts`, `aishell_dev_cuts`,
`aishell2_train_cuts`, `aishell2_dev_cuts` return a bare collection, while
`aishell_test_cuts`, `aishell2_test_cuts`, `wenetspeech_test_meeting_cuts`
return a single-entry mapping keyed `aishell_test`, `aishell2_test`,
`wenetspeech-meeting_test` respectively; each opens exactly the one
manifest belonging to its named corpus. -/
theorem narrow_accessors_shapes (d : MultiDataset) :
    (MultiDataset.aishell_train_cuts d =
      (⟨d.fbank_dir ++ ["aishell_cuts_train.jsonl.gz"]⟩,
       [Effect.openEff (d.fbank_dir ++ ["aishell_cuts_train.jsonl.gz"])])) ∧
    (MultiDataset.aishell_dev_cuts d =
      (⟨d.fbank_dir ++ ["aishell_cuts_dev.jsonl.gz"]⟩,
       [Effect.openEff (d.fbank_dir ++ ["aishell_cuts_dev.jsonl.gz"])])) ∧
    (MultiDataset.aishell2_train_cuts d =
      (⟨d.fbank_dir ++ ["aishell2_cuts_train.jsonl.gz"]⟩,
       [Effect.openEff (d.fbank_dir ++ ["aishell2_cuts_train.jsonl.gz"])])) ∧
    (MultiDataset.aishell2_dev_cuts d =
      (⟨d.fbank_dir ++ ["aishell2_cuts_dev.jsonl.gz"]⟩,
       [Effect.openEff (d.fbank_dir ++ ["aishell2_cuts_dev.jsonl.gz"])])) ∧
    (MultiDataset.aishell_test_cuts d =
      ([("aishell_test", ⟨d.fbank_dir ++ ["aishell_cuts_test.jsonl.gz"]⟩)],
       [Effect.openEff (d.fbank_dir ++ ["aishell_cuts_test.jsonl.gz"])])) ∧
    (MultiDataset.aishell2_test_cuts d =
      ([("aishell2_test", ⟨d.fbank_dir ++ ["aishell2_cuts_test.jsonl.gz"]⟩)],
       [Effect.openEff (d.fbank_dir ++ ["aishell2_cuts_test.jsonl.gz"])])) ∧
    (MultiDataset.wenetspeech_test_meeting_cuts d =
      ([("wenetspeech-meeting_test", ⟨d.fbank_dir ++ ["wenetspeech", "cuts_TEST_MEETING.jsonl.gz"]⟩)],
       [Effect.openEff (d.fbank_dir ++ ["wenetspeech", "cuts_TEST_MEETING.jsonl.gz"])])) :=
  ⟨rfl, rfl, rfl, rfl, rfl, rfl, rfl⟩

/-- C9: For every root, `dev_cuts()` and the `wenetspeech_dev` entry of the
mapping returned by `test_cuts()` are opened from the same manifest path,
`wenetspeech/cuts_DEV_fixed.jsonl.gz` resolved against the root, so the two
operations denote the same collection handle (the dev split is duplicated
inside the test mapping). -/
theorem dev_cuts_duplicated_in_test_cuts (d : MultiDataset) :
    (MultiDataset.dev_cuts d).1.path =
      d.fbank_dir ++ ["wenetspeech", "cuts_DEV_fixed.jsonl.gz"] ∧
    List.lookup "wenetspeech_dev" (MultiDataset.test_cuts d).1 =
      some (MultiDataset.dev_cuts d).1 :=
  ⟨rfl, rfl⟩

/-- C2 counterexample: the claim says every accessor, `train_cuts()` in
particular, performs no manifest-reading I/O in its synchronous call frame.
But `train_cuts` evaluates `len(...)` for each source eagerly to build the
`weights` list, and the cardinality of a lazily materializing collection is
obtained by reading its manifest; at a concrete root its frame trace is not
read-free. -/
theorem train_cuts_reads_in_frame_cex :
    readFree (MultiDataset.train_cuts [] d0).2 = false := rfl

/-- C2 amended: every accessor other than `train_cuts` performs only cheap
opens in its synchronous call frame (read-free trace); `train_cuts` alone
additionally forces manifest reads in-frame, by computing each source's
cardinality for the mux weights (witnessed by the read of the first
training manifest in its trace). -/
theorem accessors_open_only_except_train (fs : FS) (d : MultiDataset) :
    readFree (MultiDataset.dev_cuts d).2 = true ∧
    readFree (MultiDataset.test_cuts d).2 = true ∧
    readFree (MultiDataset.speechio_test_cuts d).2 = true ∧
    readFree (MultiDataset.aishell_train_cuts d).2 = true ∧
    readFree (MultiDataset.aishell_dev_cuts d).2 = true ∧
    readFree (MultiDataset.aishell_test_cuts d).2 = true ∧
    readFree (MultiDataset.aishell2_train_cuts d).2 = true ∧
    readFree (MultiDataset.aishell2_dev_cuts d).2 = true ∧
    readFree (MultiDataset.aishell2_test_cuts d).2 = true ∧
    readFree (MultiDataset.wenetspeech_test_meeting_cuts d).2 = true ∧
    Effect.readEff (d.fbank_dir ++ ["thchs_30_cuts_train.jsonl.gz"])
      ∈ (MultiDataset.train_cuts fs d).2 := by
  refine ⟨rfl, rfl, rfl, rfl, rfl, rfl, rfl, rfl, rfl, rfl, ?_⟩
  show Effect.readEff _ ∈
    d.trainOpenPaths.map Effect.openEff ++ (lensAll fs d.trainSources).2
  exact List.mem_append_right _
    (lensAll_head_read fs
      (load_manifest_lazy (d.fbank_dir ++ ["thchs_30_cuts_train.jsonl.gz"])) _)

/-- C6: On a filesystem where a required manifest is missing, the accessor
listing it fails rather than silently omitting the corpus: `train_cuts`
fails at the accessor call itself (its eager `len` computation reads every
training manifest, and the raised error aborts the whole call, yielding no
partial union); for a missing test manifest, `test_cuts` still lists the
partition and its collection fails with a not-found error on first
iteration. -/
theorem missing_manifest_fails_not_silent (fs : FS) (d : MultiDataset)
    (p : FPath) (hmiss : lookupFS fs p = none) :
    (p ∈ d.trainOpenPaths → exOk (MultiDataset.train_cuts fs d).1 = false) ∧
    (p ∈ (MultiDataset.test_cuts d).1.map (fun kv => kv.2.path) →
      ∃ kv ∈ (MultiDataset.test_cuts d).1, kv.2.path = p ∧
        LazyCutSet.iter fs kv.2 = Except.error (LoadError.fileNotFound p)) := by
  constructor
  · intro hp
    rw [mem_trainOpenPaths_iff] at hp
    show exOk (((lensAll fs d.trainSources).1).map
      (fun ws => MuxCutSet.mk d.trainSources ws)) = false
    rw [exOk_map]
    exact lensAll_fst_err fs _ p hp hmiss
  · intro hp
    rcases List.mem_map.mp hp with ⟨kv, hkv, hpath⟩
    exact ⟨kv, hkv, hpath, by simp [LazyCutSet.iter, hpath, hmiss]⟩

/-- C6 witness: on the empty filesystem (the thchs manifest of `d0` is
missing), `train_cuts` fails. -/
theorem missing_manifest_fails_not_silent_witness :
    exOk (MultiDataset.train_cuts [] d0).1 = false :=
  (missing_manifest_fails_not_silent [] d0
    ["f", "thchs_30_cuts_train.jsonl.gz"] rfl).1 (by decide)

/-- C7: Calling an accessor twice with an unchanged root yields identical
results (any two aggregators holding equal roots produce equal outputs —
the class has no state beyond the stored root, so results cannot depend on
call history), and every call's frame trace opens the full manifest list
from disk: no handle is cached across calls. -/
theorem accessors_idempotent_no_cache (fs : FS) (d1 d2 : MultiDataset)
    (h : d1.fbank_dir = d2.fbank_dir) :
    MultiDataset.train_cuts fs d1 = MultiDataset.train_cuts fs d2 ∧
    MultiDataset.test_cuts d1 = MultiDataset.test_cuts d2 ∧
    MultiDataset.speechio_test_cuts d1 = MultiDataset.speechio_test_cuts d2 ∧
    MultiDataset.dev_cuts d1 = MultiDataset.dev_cuts d2 ∧
    openedPaths (MultiDataset.train_cuts fs d1).2 = trainRel.map (d1.fbank_dir ++ ·) ∧
    openedPaths (MultiDataset.test_cuts d1).2 = testOpenRel.map (d1.fbank_dir ++ ·) := by
  obtain ⟨r1⟩ := d1
  obtain ⟨r2⟩ := d2
  cases h
  exact ⟨rfl, rfl, rfl, rfl, openedPaths_train_cuts fs ⟨r1⟩, openedPaths_test_cuts ⟨r1⟩⟩

/-- C7 witness: two aggregators holding the root `f` produce equal outputs
and re-open the full manifest lists. -/
theorem accessors_idempotent_no_cache_witness :
    MultiDataset.train_cuts [] d0 = MultiDataset.train_cuts [] ⟨["f"]⟩ ∧
    MultiDataset.test_cuts d0 = MultiDataset.test_cuts ⟨["f"]⟩ ∧
    MultiDataset.speechio_test_cuts d0 = MultiDataset.speechio_test_cuts ⟨["f"]⟩ ∧
    MultiDataset.dev_cuts d0 = MultiDataset.dev_cuts ⟨["f"]⟩ ∧
    openedPaths (MultiDataset.train_cuts [] d0).2 = trainRel.map (d0.fbank_dir ++ ·) ∧
    openedPaths (MultiDataset.test_cuts d0).2 = testOpenRel.map (d0.fbank_dir ++ ·) :=
  accessors_idempotent_no_cache [] d0 ⟨["f"]⟩ rfl

/-- C10: For every root and filesystem, the set of manifest paths opened by
`train_cuts` is disjoint from the set of manifest paths opened by
`test_cuts`: no manifest contributes to both the combined training
collection and the test mapping. -/
theorem train_test_manifests_disjoint (fs : FS) (d : MultiDataset)
    (p : FPath) (hp : p ∈ openedPaths (MultiDataset.train_cuts fs d).2) :
    p ∉ openedPaths (MultiDataset.test_cuts d).2 := by
  rw [openedPaths_train_cuts] at hp
  rw [openedPaths_test_cuts]
  rcases List.mem_map.mp hp with ⟨r, hr, rfl⟩
  intro hq
  rcases List.mem_map.mp hq with ⟨s, hs, heq⟩
  have hdis : ∀ x ∈ trainRel, x ∉ testOpenRel := by decide
  exact hdis r hr (List.append_cancel_left heq ▸ hs)

/-- C10 witness: the thchs training manifest of `d0` is opened by
`train_cuts` and not by `test_cuts`. -/
theorem train_test_manifests_disjoint_witness :
    (["f", "thchs_30_cuts_train.jsonl.gz"] : FPath) ∉
      openedPaths (MultiDataset.test_cuts d0).2 :=
  train_test_manifests_disjoint [] d0 ["f", "thchs_30_cuts_train.jsonl.gz"]
    (by decide)
